import Mathlib

/-
Verification development for the SeleniumOrchestrator repository.

The Lean definitions below are a shallow embedding of the Python sources:
  src/domain/tab.py                 (Tab, DefaultTabStatus)
  src/application/tab_service.py    (TabService)
  src/application/profile_manager.py(Profile, ProfileManager)
  src/core/manager.py               (core SeleniumManager)
  src/core/selenium/profile.py      (core SeleniumProfile)
  src/orchestrator/manager.py       (orchestrator SeleniumManager)
  src/orchestrator/selenium_profile.py (orchestrator SeleniumProfile)
  src/core/ports.py                 (Locator, WaitCondition)
  src/infra/selenium_session.py     (SeleniumSession)
  src/infra/browser_factory.py      (BrowserFactory)
  src/infra/driver_creator.py       (DriverCreator)
  src/utils/exceptions.py           (typed error taxonomy)

Python mutable objects are modelled by explicit state passing; driver-side
effects are modelled by the list of commands that a call issues through the
BrowserSessionPort, and by explicit environment arguments standing for the
values the external selenium driver returns (e.g. freshly assigned window
handles).  Fallible calls return Except.
-/

namespace Domain

/-- Tab status enumeration, src/domain/tab.py (and the identical enums in
src/core/enums.py). -/
inductive DefaultTabStatus where
  | ACTIVE
  | INACTIVE
deriving DecidableEq

/-- Driver status enumeration, src/core/enums.py (OPEN | CLOSED); the same
enumeration is imported by src/application/tab_service.py. -/
inductive DefaultDriverStatus where
  | OPEN
  | CLOSED
deriving DecidableEq

/-- A Tab record, src/domain/tab.py: a caller-chosen name, the opaque
window handle assigned by the driver, and a status. -/
structure Tab where
  name : String
  window_handle : String
  status : DefaultTabStatus
deriving DecidableEq

/-- Tab.update_status, src/domain/tab.py line 18. -/
def Tab.update_status (t : Tab) (new_status : DefaultTabStatus) : Tab :=
  { t with status := new_status }

/-- Tab.is_active, src/domain/tab.py line 21. -/
def Tab.is_active (t : Tab) : Bool :=
  t.status = DefaultTabStatus.ACTIVE

end Domain

namespace Application

open Domain

/-- One command issued through the BrowserSessionPort (src/core/ports.py);
used to record the driver-side effects a TabService call performs. -/
inductive PortCmd where
  | openPort (browser_type : String)
  | closePort
  | newTabPort
  | switchTabPort (handle : String)
  | closeTabPort (handle : String)
  | executeCdpPort (cmd : String)
deriving DecidableEq

/-- The mutable state of a TabService, src/application/tab_service.py
lines 7-11: the registered tabs in registration order and the driver
status (initially OPEN). -/
structure TabService where
  tabs : List Tab
  driver_status : DefaultDriverStatus
deriving DecidableEq

/-- The state right after TabService.__init__ (empty tab list, OPEN). -/
def TabService.init : TabService :=
  { tabs := [], driver_status := DefaultDriverStatus.OPEN }

/-- TabService._find, src/application/tab_service.py lines 59-60: first
registered tab with the given name, if any. -/
def TabService.findTab (s : TabService) (name : String) : Option Tab :=
  s.tabs.find? (fun t => t.name = name)

/-- TabService.start, src/application/tab_service.py lines 13-17.  The
window handle returned by the driver for the first window is passed in as
the `handle` argument. -/
def TabService.start (s : TabService) (browser_type : String)
    (first_tab_name : String) (handle : String) : TabService × List PortCmd :=
  ({ s with tabs := s.tabs ++ [⟨first_tab_name, handle, DefaultTabStatus.ACTIVE⟩] },
   [PortCmd.openPort browser_type, PortCmd.newTabPort])

/-- TabService.new_tab, src/application/tab_service.py lines 19-27:
returns False without any effect when the driver status is CLOSED;
otherwise asks the port for a new window (whose driver-assigned handle is
the `handle` argument), deactivates every existing tab, appends the new
tab as ACTIVE and returns True.  Note: the source performs no check that
`name` is not already registered. -/
def TabService.new_tab (s : TabService) (name : String) (handle : String) :
    TabService × List PortCmd × Bool :=
  if s.driver_status = DefaultDriverStatus.CLOSED then
    (s, [], false)
  else
    ({ s with tabs := s.tabs.map (fun t => t.update_status DefaultTabStatus.INACTIVE)
                        ++ [⟨name, handle, DefaultTabStatus.ACTIVE⟩] },
     [PortCmd.newTabPort], true)

/-- TabService.switch_to, src/application/tab_service.py lines 29-35:
no-op when the name is unknown; otherwise switches the driver window to
the found tab's handle and sets every tab whose name equals `name` to
ACTIVE and every other tab to INACTIVE. -/
def TabService.switch_to (s : TabService) (name : String) :
    TabService × List PortCmd :=
  match s.findTab name with
  | none => (s, [])
  | some tab =>
    ({ s with tabs := s.tabs.map (fun t =>
        t.update_status
          (if t.name = name then DefaultTabStatus.ACTIVE else DefaultTabStatus.INACTIVE)) },
     [PortCmd.switchTabPort tab.window_handle])

/-- TabService.close_all, src/application/tab_service.py lines 49-52:
closes the underlying connection, clears the tab list and marks the
driver CLOSED. -/
def TabService.close_all (s : TabService) : TabService × List PortCmd :=
  ({ tabs := [], driver_status := DefaultDriverStatus.CLOSED }, [PortCmd.closePort])

/-- TabService.close_tab, src/application/tab_service.py lines 37-47:
no-op when the name is unknown; delegates to close_all when the found tab
is the only one; otherwise closes the found tab's window, removes the
first tab carrying that name (Python `list.remove` on the object returned
by `_find`) and switches to the first remaining tab in registration
order. -/
def TabService.close_tab (s : TabService) (name : String) :
    TabService × List PortCmd :=
  match s.findTab name with
  | none => (s, [])
  | some tab =>
    if s.tabs.length = 1 then
      s.close_all
    else
      let tabs1 := s.tabs.eraseP (fun t => t.name = name)
      let s1 : TabService := { s with tabs := tabs1 }
      match tabs1.head? with
      | none =>
        -- unreachable: the found tab exists and the length is not 1,
        -- so at least one tab remains after the removal
        (s1, [PortCmd.closeTabPort tab.window_handle])
      | some t0 =>
        let step := s1.switch_to t0.name
        (step.1, PortCmd.closeTabPort tab.window_handle :: step.2)

/-- One operation of the tab state machine quantified over in the spec's
invariant; `newTabOp` carries the window handle the driver would assign. -/
inductive TabOp where
  | newTabOp (name handle : String)
  | switchToOp (name : String)
  | closeTabOp (name : String)
deriving DecidableEq

/-- State reached by running one operation (discarding port commands and
the boolean result, which do not affect the state). -/
def TabService.applyOp (s : TabService) : TabOp → TabService
  | TabOp.newTabOp n h => (s.new_tab n h).1
  | TabOp.switchToOp n => (s.switch_to n).1
  | TabOp.closeTabOp n => (s.close_tab n).1

/-- State reached by running a sequence of operations left to right. -/
def TabService.applyOps (s : TabService) (ops : List TabOp) : TabService :=
  ops.foldl TabService.applyOp s

/-- Number of tabs whose status is ACTIVE. -/
def TabService.activeCount (s : TabService) : Nat :=
  s.tabs.countP (fun t => t.status = DefaultTabStatus.ACTIVE)

/-- The session state reached right after `start` on a fresh service:
one ACTIVE tab, driver OPEN. -/
def TabService.startState (first_tab_name handle : String) : TabService :=
  (TabService.init.start "chrome" first_tab_name handle).1

/-- Well-formedness of a tab-service state: tab names are pairwise
distinct, a CLOSED driver has no tabs, and a non-empty tab list has
exactly one ACTIVE tab. -/
def TabService.goodState (s : TabService) : Prop :=
  (s.tabs.map Tab.name).Nodup
  ∧ (s.driver_status = DefaultDriverStatus.CLOSED → s.tabs = [])
  ∧ (s.tabs ≠ [] → s.activeCount = 1)

instance (s : TabService) : Decidable s.goodState := by
  unfold TabService.goodState
  infer_instance

/-- An operation is name-fresh in a state when, if it is a `newTabOp`, its
name is not yet registered. -/
def TabService.freshOk (s : TabService) : TabOp → Bool
  | TabOp.newTabOp n _ => (s.findTab n).isNone
  | _ => true

/-- Every `newTabOp` along the trace uses a name that is fresh at the
moment it is applied. -/
def TabService.freshOps (s : TabService) : List TabOp → Bool
  | [] => true
  | op :: rest => s.freshOk op && (s.applyOp op).freshOps rest

end Application

namespace CorePorts

/-- The locator strategy allow-list, src/core/ports.py lines 8-17.  The
members are the literal string values of the eight selenium `By` constants
named there (By.ID = "id", By.XPATH = "xpath", By.LINK_TEXT = "link text",
By.PARTIAL_LINK_TEXT = "partial link text", By.NAME = "name",
By.TAG_NAME = "tag name", By.CLASS_NAME = "class name",
By.CSS_SELECTOR = "css selector"). -/
def VALID_STRATEGIES : List String :=
  ["id", "xpath", "link text", "partial link text",
   "name", "tag name", "class name", "css selector"]

/-- A validated locator, src/core/ports.py lines 7-26: the strategy string
(field `by` in the source) and the value. -/
structure Locator where
  by_ : String
  value : String
deriving DecidableEq

/-- Locator.__init__, src/core/ports.py lines 19-23: raises ValueError when
the strategy is not in VALID_STRATEGIES, otherwise stores the pair. -/
def Locator.make (by_ : String) (value : String) : Except String Locator :=
  if by_ ∈ VALID_STRATEGIES then
    Except.ok { by_ := by_, value := value }
  else
    Except.error ("Invalid locator strategy: " ++ by_)

end CorePorts

namespace CorePorts

/-- WaitCondition string constant, src/core/ports.py line 29. -/
def WaitCondition.ELEMENT_TO_BE_CLICKABLE : String := "element_to_be_clickable"

/-- WaitCondition string constant, src/core/ports.py lines 30 and 40. -/
def WaitCondition.PRESENCE_OF_ELEMENT_LOCATED : String := "presence_of_element_located"

/-- WaitCondition string constant, src/core/ports.py lines 31 and 39. -/
def WaitCondition.PRESENCE_OF_ALL_ELEMENTS_LOCATED : String := "presence_of_all_elements_located"

/-- WaitCondition string constant, src/core/ports.py lines 32 and 50. -/
def WaitCondition.VISIBILITY_OF_ELEMENT_LOCATED : String := "visibility_of_element_located"

/-- WaitCondition string constant, src/core/ports.py lines 33 and 51. -/
def WaitCondition.VISIBILITY_OF_ALL_ELEMENTS_LOCATED : String := "visibility_of_all_elements_located"

/-- WaitCondition string constant, src/core/ports.py line 34. -/
def WaitCondition.ELEMENT_LOCATED_SELECTION_STATE_TO_BE : String := "element_located_selection_state_to_be"

/-- WaitCondition string constant, src/core/ports.py line 35. -/
def WaitCondition.ELEMENT_SELECTION_STATE_TO_BE : String := "element_selection_state_to_be"

/-- WaitCondition string constant, src/core/ports.py line 36. -/
def WaitCondition.FRAME_TO_BE_AVAILABLE_AND_SWITCH_TO_IT : String := "frame_to_be_available_and_switch_to_it"

/-- WaitCondition string constant, src/core/ports.py line 37. -/
def WaitCondition.INVISIBILITY_OF_ELEMENT : String := "invisibility_of_element"

/-- WaitCondition string constant, src/core/ports.py line 38. -/
def WaitCondition.INVISIBILITY_OF_ELEMENT_LOCATED : String := "invisibility_of_element_located"

/-- WaitCondition string constant, src/core/ports.py line 41. -/
def WaitCondition.STALENESS_OF : String := "staleness_of"

/-- WaitCondition string constant, src/core/ports.py line 42. -/
def WaitCondition.TEXT_TO_BE_PRESENT_IN_ELEMENT : String := "text_to_be_present_in_element"

/-- WaitCondition string constant, src/core/ports.py line 43. -/
def WaitCondition.TEXT_TO_BE_PRESENT_IN_ELEMENT_VALUE : String := "text_to_be_present_in_element_value"

/-- WaitCondition string constant, src/core/ports.py line 44. -/
def WaitCondition.TITLE_CONTAINS : String := "title_contains"

/-- WaitCondition string constant, src/core/ports.py line 45. -/
def WaitCondition.TITLE_IS : String := "title_is"

/-- WaitCondition string constant, src/core/ports.py line 46. -/
def WaitCondition.URL_CONTAINS : String := "url_contains"

/-- WaitCondition string constant, src/core/ports.py line 47. -/
def WaitCondition.URL_MATCHES : String := "url_matches"

/-- WaitCondition string constant, src/core/ports.py line 48. -/
def WaitCondition.URL_TO_BE : String := "url_to_be"

/-- WaitCondition string constant, src/core/ports.py line 49. -/
def WaitCondition.VISIBILITY_OF : String := "visibility_of"

end CorePorts

namespace Infra

open CorePorts

/-- An opaque live element reference returned by the driver. -/
structure Element where
  elemId : Nat
deriving DecidableEq

/-- The selenium expected-conditions functions referenced by the
condition-to-predicate table in SeleniumSession.find_element,
src/infra/selenium_session.py lines 67-91 (one constructor per distinct
EC function named there). -/
inductive ECKind where
  | element_to_be_clickable
  | presence_of_element_located
  | presence_of_all_elements_located
  | visibility_of_element_located
  | visibility_of_all_elements_located
  | element_located_selection_state_to_be
  | element_selection_state_to_be
  | frame_to_be_available_and_switch_to_it
  | invisibility_of_element
  | invisibility_of_element_located
  | staleness_of
  | text_to_be_present_in_element
  | text_to_be_present_in_element_value
  | title_contains
  | title_is
  | url_contains
  | url_matches
  | url_to_be
  | visibility_of
deriving DecidableEq

/-- The condition-to-predicate table of SeleniumSession.find_element,
src/infra/selenium_session.py lines 67-91, in source order with the
repeated entries dropped.  The source dict literal lists four keys twice
with identical values; Python keeps the last occurrence, which is equal to
the first, so assoc-list lookup agrees with the dict lookup. -/
def ec_map : List (String × ECKind) := [
  (WaitCondition.ELEMENT_TO_BE_CLICKABLE, ECKind.element_to_be_clickable),
  (WaitCondition.PRESENCE_OF_ELEMENT_LOCATED, ECKind.presence_of_element_located),
  (WaitCondition.PRESENCE_OF_ALL_ELEMENTS_LOCATED, ECKind.presence_of_all_elements_located),
  (WaitCondition.VISIBILITY_OF_ELEMENT_LOCATED, ECKind.visibility_of_element_located),
  (WaitCondition.VISIBILITY_OF_ALL_ELEMENTS_LOCATED, ECKind.visibility_of_all_elements_located),
  (WaitCondition.ELEMENT_LOCATED_SELECTION_STATE_TO_BE, ECKind.element_located_selection_state_to_be),
  (WaitCondition.ELEMENT_SELECTION_STATE_TO_BE, ECKind.element_selection_state_to_be),
  (WaitCondition.FRAME_TO_BE_AVAILABLE_AND_SWITCH_TO_IT, ECKind.frame_to_be_available_and_switch_to_it),
  (WaitCondition.INVISIBILITY_OF_ELEMENT, ECKind.invisibility_of_element),
  (WaitCondition.INVISIBILITY_OF_ELEMENT_LOCATED, ECKind.invisibility_of_element_located),
  (WaitCondition.STALENESS_OF, ECKind.staleness_of),
  (WaitCondition.TEXT_TO_BE_PRESENT_IN_ELEMENT, ECKind.text_to_be_present_in_element),
  (WaitCondition.TEXT_TO_BE_PRESENT_IN_ELEMENT_VALUE, ECKind.text_to_be_present_in_element_value),
  (WaitCondition.TITLE_CONTAINS, ECKind.title_contains),
  (WaitCondition.TITLE_IS, ECKind.title_is),
  (WaitCondition.URL_CONTAINS, ECKind.url_contains),
  (WaitCondition.URL_MATCHES, ECKind.url_matches),
  (WaitCondition.URL_TO_BE, ECKind.url_to_be),
  (WaitCondition.VISIBILITY_OF, ECKind.visibility_of)]

/-- Exceptions of the underlying selenium client observed at this layer. -/
inductive SelException where
  | TimeoutException
  | NoSuchElementException
  | WebDriverException (msg : String)
deriving DecidableEq

/-- Abstract model of the live selenium driver handle: the window handles
it reports, the payloads it returns for command execution, and its page
behaviour, given as the value each expected condition produces for a
locator at each poll tick (none meaning the condition is not satisfied at
that tick, or raised an exception that WebDriverWait ignores) and as the
full-document match list per tick. -/
structure Driver where
  current_window_handle : String
  new_window_handle : String
  cdp_result : String → String → String
  exec_result : String → String → String
  ecOutcome : ECKind → Locator → Nat → Option Element
  allMatches : Locator → Nat → List Element

/-- Abstract model of a root WebElement passed as the `root_element`
argument: `found loc` is the list of its descendants matching `loc` in
document order.  Selenium scoped-query semantics: WebElement.find_elements
returns this whole list (empty if nothing matches) and
WebElement.find_element returns its first entry, raising
NoSuchElementException when the list is empty. -/
structure RootElement where
  found : Locator → List Element

/-- Poll loop of WebDriverWait(driver, timeout).until, on discrete poll
ticks: checks ticks `start, start+1, ...` while fuel lasts, returning the
first produced value together with its tick. -/
def waitUntilAux (pred : Nat → Option α) : Nat → Nat → Option (α × Nat)
  | _, 0 => none
  | t, fuel + 1 =>
    match pred t with
    | some v => some (v, t)
    | none => waitUntilAux pred (t + 1) fuel

/-- WebDriverWait(driver, timeout).until(pred): polls ticks 0..timeout and
raises TimeoutException when no tick produces a value. -/
def waitUntil (pred : Nat → Option α) (timeout : Nat) : Except SelException (α × Nat) :=
  match waitUntilAux pred 0 (timeout + 1) with
  | some r => Except.ok r
  | none => Except.error SelException.TimeoutException

/-- The SeleniumSession state, src/infra/selenium_session.py lines 12-15:
a possibly uninitialized driver handle (None until `open`). -/
structure SeleniumSession where
  driver : Option Driver

/-- SeleniumSession.get, src/infra/selenium_session.py lines 27-30: raises
WebDriverException when the driver handle is None, otherwise navigates
(no observable result in this model). -/
def SeleniumSession.get (s : SeleniumSession) (url : String) : Except SelException Unit :=
  match s.driver with
  | none => Except.error (SelException.WebDriverException "Driver not initialized")
  | some _ => Except.ok ()

/-- SeleniumSession.new_tab, src/infra/selenium_session.py lines 32-36:
raises WebDriverException when the driver handle is None, otherwise opens a
new window and returns the driver's (new) current window handle. -/
def SeleniumSession.new_tab (s : SeleniumSession) : Except SelException String :=
  match s.driver with
  | none => Except.error (SelException.WebDriverException "Driver not initialized")
  | some d => Except.ok d.new_window_handle

/-- SeleniumSession.execute_cdp, src/infra/selenium_session.py lines 47-50. -/
def SeleniumSession.execute_cdp (s : SeleniumSession) (cmd : String) (params : String) :
    Except SelException String :=
  match s.driver with
  | none => Except.error (SelException.WebDriverException "Driver not initialized")
  | some d => Except.ok (d.cdp_result cmd params)

/-- SeleniumSession.execute, src/infra/selenium_session.py lines 52-55. -/
def SeleniumSession.execute (s : SeleniumSession) (command : String) (params : String) :
    Except SelException String :=
  match s.driver with
  | none => Except.error (SelException.WebDriverException "Driver not initialized")
  | some d => Except.ok (d.exec_result command params)

/-- SeleniumSession.find_element, src/infra/selenium_session.py lines
57-102.  Raises WebDriverException when the driver handle is None.  The
condition string is looked up in ec_map with EC.presence_of_element_located
as the default.  With a root element the call is a single scoped query
(selenium WebElement.find_element: first match, or NoSuchElementException —
only TimeoutException is caught by the source's except clause); without one
it polls the chosen condition until it produces a value or the timeout
elapses, in which case the caught TimeoutException yields None.  The second
component of the result is the number of poll ticks consumed. -/
def SeleniumSession.find_element (s : SeleniumSession) (locator : Locator)
    (timeout : Nat) (condition : String) (root_element : Option RootElement) :
    Except SelException (Option Element) × Nat :=
  match s.driver with
  | none => (Except.error (SelException.WebDriverException "Driver not initialized"), 0)
  | some d =>
    let ec_func := (ec_map.lookup condition).getD ECKind.presence_of_element_located
    match root_element with
    | some root =>
      match (root.found locator).head? with
      | some e => (Except.ok (some e), 0)
      | none => (Except.error SelException.NoSuchElementException, 0)
    | none =>
      match waitUntil (fun t => d.ecOutcome ec_func locator t) timeout with
      | Except.ok (v, t) => (Except.ok (some v), t)
      | Except.error _ => (Except.ok none, timeout)

/-- SeleniumSession.find_elements, src/infra/selenium_session.py lines
104-131.  Raises WebDriverException when the driver handle is None.  With a
root element: a single scoped WebElement.find_elements query (possibly
empty, never raising).  Without one: polls
EC.presence_of_all_elements_located (non-empty match list) until the
timeout, whose expiry is caught and yields the empty list.  The
scroll_into_view flag only triggers per-element scroll side effects whose
failures the source swallows, so it does not affect the returned value.
The second component is the number of poll ticks consumed. -/
def SeleniumSession.find_elements (s : SeleniumSession) (locator : Locator)
    (timeout : Nat) (scroll_into_view : Bool) (root_element : Option RootElement) :
    Except SelException (List Element) × Nat :=
  match s.driver with
  | none => (Except.error (SelException.WebDriverException "Driver not initialized"), 0)
  | some d =>
    match root_element with
    | some root => (Except.ok (root.found locator), 0)
    | none =>
      match waitUntil (fun t =>
          let l := d.allMatches locator t
          if l.isEmpty then none else some l) timeout with
      | Except.ok (l, t) => (Except.ok l, t)
      | Except.error _ => (Except.ok [], timeout)

/-- A driver whose page never satisfies any condition and never contains
any element (used as a concrete evaluation fixture). -/
def neverDriver : Driver :=
  { current_window_handle := "w0", new_window_handle := "w1",
    cdp_result := fun _ _ => "", exec_result := fun _ _ => "",
    ecOutcome := fun _ _ _ => none, allMatches := fun _ _ => [] }

/-- A driver whose page satisfies every condition immediately with element
number 7 (used as a concrete evaluation fixture). -/
def alwaysDriver : Driver :=
  { current_window_handle := "w0", new_window_handle := "w1",
    cdp_result := fun _ _ => "", exec_result := fun _ _ => "",
    ecOutcome := fun _ _ _ => some ⟨7⟩, allMatches := fun _ _ => [⟨7⟩] }

/-- A root element with no matching descendants for any locator. -/
def emptyRoot : RootElement := ⟨fun _ => []⟩

/-- A concrete valid locator used by the evaluation fixtures. -/
def sampleLocator : Locator := { by_ := "id", value := "q" }

end Infra

namespace Infra

/-- Browser launch options, src/infra/browser_config_builder.py: modelled
by the list of accumulated command-line arguments (the only content the
claims observe). -/
structure BrowserConfigBuilder where
  arguments : List String
deriving DecidableEq

/-- The connection dictionary passed to the factory and creators: the
entries read by the sources are browser_type, binary_path and remote_url. -/
structure Connection where
  browser_type : String
  binary_path : String
  remote_url : String
deriving DecidableEq

/-- The typed error taxonomy, src/utils/exceptions.py lines 10-52: one
constructor per SeleniumWrapperException subclass, carrying the constructor
arguments (the stored message is message ++ ": " ++ name in the source's
formatting). -/
inductive WrapperError where
  | BrowserInitializationError (browser_name : String) (message : String)
  | TabManagementError (tab_name : String) (message : String)
  | DriverNotFoundError (driver_name : String) (message : String)
  | BrowserConfigError (message : String)
  | InvalidTabOperationError (operation : String) (message : String)
deriving DecidableEq

/-- A live driver handle produced by a successful launch. -/
structure DriverHandle where
  kind : String
deriving DecidableEq

/-- Environment standing for the three DriverCreator static methods
(src/infra/driver_creator.py), i.e. the underlying launch behaviour the
factory dispatches to; kept abstract because a launch depends on the host
system. -/
structure CreatorEnv where
  chrome : BrowserConfigBuilder → Connection → Except WrapperError DriverHandle
  firefox : BrowserConfigBuilder → Connection → Except WrapperError DriverHandle
  remote : BrowserConfigBuilder → Connection → Except WrapperError DriverHandle

/-- BrowserFactory.driver_map, src/infra/browser_factory.py lines 10-14:
the fixed dispatch table from lowercase browser kind to creator. -/
def BrowserFactory.driver_map (env : CreatorEnv) :
    List (String × (BrowserConfigBuilder → Connection → Except WrapperError DriverHandle)) :=
  [("chrome", env.chrome), ("firefox", env.firefox), ("remote", env.remote)]

/-- Python str.lower on the ASCII browser-kind strings the factory
receives (Lean's String.toLower is not kernel-reducible, so the mapping is
spelled out over the character list). -/
def lower (s : String) : String := String.mk (s.data.map Char.toLower)

/-- BrowserFactory.create_browser, src/infra/browser_factory.py lines
16-23: lowercases the browser type, looks it up in the fixed table, raises
BrowserInitializationError(browser_type) (default message "Failed to
initialize browser") when it is absent, and otherwise calls the found
creator. -/
def BrowserFactory.create_browser (env : CreatorEnv) (browser_type : String)
    (options : BrowserConfigBuilder) (connection : Connection) :
    Except WrapperError DriverHandle :=
  let bt := lower browser_type
  match (BrowserFactory.driver_map env).lookup bt with
  | none => Except.error (WrapperError.BrowserInitializationError bt "Failed to initialize browser")
  | some creator => creator options connection

/-- A stub creator environment whose launches always succeed (used as a
concrete evaluation fixture). -/
def stubCreatorEnv : CreatorEnv :=
  { chrome := fun _ _ => Except.ok ⟨"chrome"⟩,
    firefox := fun _ _ => Except.ok ⟨"firefox"⟩,
    remote := fun _ _ => Except.ok ⟨"remote"⟩ }

end Infra

namespace AppProfiles

open Domain Infra

/-- The observable state of a Profile, src/application/profile_manager.py
lines 13-37: the registry key, the driver status and the tab list.  The
`pid` field is a creation stamp standing for Python object identity; the
session, element-service and config objects only feed the abstracted
driver launch. -/
structure Profile where
  pid : Nat
  driver_name : String
  driver_status : DefaultDriverStatus
  tabs : List Tab
deriving DecidableEq

/-- Profile.__init__, src/application/profile_manager.py lines 14-37:
opens the session and registers one initial ACTIVE tab whose
driver-assigned window handle is the `handle` argument. -/
def Profile.create (pid : Nat) (driver_name tab_name handle : String) : Profile :=
  { pid := pid, driver_name := driver_name,
    driver_status := DefaultDriverStatus.OPEN,
    tabs := [⟨tab_name, handle, DefaultTabStatus.ACTIVE⟩] }

/-- ProfileManager state, src/application/profile_manager.py lines 57-59:
the name-keyed profile dictionary (as an association list in insertion
order) plus the next identity stamp. -/
structure ProfileManager where
  profiles : List (String × Profile)
  next_pid : Nat
deriving DecidableEq

/-- ProfileManager.get_profile, src/application/profile_manager.py
lines 88-89. -/
def ProfileManager.get_profile (m : ProfileManager) (driver_name : String) : Option Profile :=
  m.profiles.lookup driver_name

/-- ProfileManager.new_profile, src/application/profile_manager.py lines
61-75: returns the registered profile unchanged when the name is already
present (the tab name, session, options and connection arguments are not
read in that branch); otherwise creates a profile and registers it. -/
def ProfileManager.new_profile (m : ProfileManager) (driver_name tab_name : String)
    (profile_options : BrowserConfigBuilder) (connection : Connection) (handle : String) :
    ProfileManager × Profile :=
  match m.profiles.lookup driver_name with
  | some p => (m, p)
  | none =>
    let p := Profile.create m.next_pid driver_name tab_name handle
    ({ profiles := m.profiles ++ [(driver_name, p)], next_pid := m.next_pid + 1 }, p)

end AppProfiles

namespace CoreM

open Domain Infra

/-- The observable state of a core SeleniumProfile,
src/core/selenium/profile.py lines 14-34; `pid` stands for Python object
identity. -/
structure SeleniumProfile where
  pid : Nat
  driver_name : String
  status : DefaultDriverStatus
  tabs : List Tab
deriving DecidableEq

/-- SeleniumProfile.__init__ / create_session, src/core/selenium/profile.py
lines 16-54: launches the driver, sets status OPEN and registers one
initial ACTIVE tab (its handle is the driver's current window handle,
passed in as `handle`). -/
def SeleniumProfile.create (pid : Nat) (driver_name tab_name handle : String) : SeleniumProfile :=
  { pid := pid, driver_name := driver_name,
    status := DefaultDriverStatus.OPEN,
    tabs := [⟨tab_name, handle, DefaultTabStatus.ACTIVE⟩] }

/-- SeleniumProfile.new_tab, src/core/selenium/profile.py lines 106-120:
when the status is not CLOSED, opens a new window (whose driver-assigned
handle is the `handle` argument), appends the new tab as ACTIVE and then
runs the comprehension of line 117, which sets every tab whose name
differs from the new name to INACTIVE — a tab already carrying the new
name is skipped and keeps its status; returns True.  When CLOSED it
returns False with no effect.  No duplicate-name check is performed. -/
def SeleniumProfile.new_tab (p : SeleniumProfile) (name handle : String) :
    SeleniumProfile × Bool :=
  if ¬ p.status = DefaultDriverStatus.CLOSED then
    let tabs2 := (p.tabs ++ [Tab.mk name handle DefaultTabStatus.ACTIVE]).map
      (fun t => if t.name ≠ name then t.update_status DefaultTabStatus.INACTIVE else t)
    ({ p with tabs := tabs2 }, true)
  else
    (p, false)

/-- SeleniumManager state, src/core/manager.py lines 9-14. -/
structure SeleniumManager where
  profiles : List SeleniumProfile
  next_pid : Nat
deriving DecidableEq

/-- SeleniumManager.get_profile, src/core/manager.py lines 91-98: first
registered profile with the given driver name. -/
def SeleniumManager.get_profile (m : SeleniumManager) (name : String) : Option SeleniumProfile :=
  m.profiles.find? (fun p => p.driver_name = name)

/-- SeleniumManager.new_profile, src/core/manager.py lines 16-61: returns
the registered instance when one exists for the driver name (its other
arguments are not read in that branch); otherwise creates a profile and
appends it. -/
def SeleniumManager.new_profile (m : SeleniumManager) (driver_name tab_name : String)
    (profile_options : BrowserConfigBuilder) (connection : Connection) (handle : String) :
    SeleniumManager × SeleniumProfile :=
  match m.get_profile driver_name with
  | some inst => (m, inst)
  | none =>
    let p := SeleniumProfile.create m.next_pid driver_name tab_name handle
    ({ profiles := m.profiles ++ [p], next_pid := m.next_pid + 1 }, p)

end CoreM

namespace Orch

open Domain

/-- Chrome options, modelled by the accumulated argument list
(src/orchestrator/manager.py passes them to the profile). -/
structure Options where
  arguments : List String
deriving DecidableEq

/-- The observable state of an orchestrator SeleniumProfile,
src/orchestrator/selenium_profile.py lines 20-39; `pid` stands for Python
object identity. -/
structure SeleniumProfile where
  pid : Nat
  name : String
  options : Options
  status : DefaultDriverStatus
  tabs : List Tab
deriving DecidableEq

/-- SeleniumProfile.__init__ / create_session,
src/orchestrator/selenium_profile.py lines 22-67: launches the driver,
sets status OPEN and registers one initial ACTIVE tab. -/
def SeleniumProfile.create (pid : Nat) (name tab_name : String) (options : Options)
    (handle : String) : SeleniumProfile :=
  { pid := pid, name := name, options := options,
    status := DefaultDriverStatus.OPEN,
    tabs := [⟨tab_name, handle, DefaultTabStatus.ACTIVE⟩] }

/-- SeleniumProfile.get_tab, src/orchestrator/selenium_profile.py lines
69-73. -/
def SeleniumProfile.get_tab (p : SeleniumProfile) (name : String) : Option Tab :=
  p.tabs.find? (fun t => t.name = name)

/-- SeleniumProfile.is_tab_exist, src/orchestrator/selenium_profile.py
lines 83-87. -/
def SeleniumProfile.is_tab_exist (p : SeleniumProfile) (name : String) : Bool :=
  (p.get_tab name).isSome

/-- Status update of the first tab with the given name (Python mutates the
object returned by get_tab); identity when the name is unknown. -/
def updateFirst (tabs : List Tab) (name : String) (status : DefaultTabStatus) : List Tab :=
  match tabs with
  | [] => []
  | t :: ts =>
    if t.name = name then { t with status := status } :: ts
    else t :: updateFirst ts name status

/-- SeleniumProfile.update_tab_status, src/orchestrator/selenium_profile.py
lines 78-81. -/
def SeleniumProfile.update_tab_status (p : SeleniumProfile) (name : String)
    (status : DefaultTabStatus) : SeleniumProfile :=
  { p with tabs := updateFirst p.tabs name status }

/-- SeleniumProfile.open_new_tab, src/orchestrator/selenium_profile.py
lines 105-116: appends a new ACTIVE tab unless the profile is CLOSED, then
iterates over the (post-append) tabs and calls update_tab_status(tab.name,
INACTIVE) for every tab whose name differs from the new one. -/
def SeleniumProfile.open_new_tab (p : SeleniumProfile) (name handle : String) : SeleniumProfile :=
  let p1 :=
    if p.status = DefaultDriverStatus.CLOSED then p
    else { p with tabs := p.tabs ++ [⟨name, handle, DefaultTabStatus.ACTIVE⟩] }
  (p1.tabs.map Tab.name).foldl
    (fun q n =>
      if n ≠ name then q.update_tab_status n DefaultTabStatus.INACTIVE else q) p1

/-- Replacement of the first profile carrying the given name (Python
mutates the object returned by get_profile in place). -/
def replaceFirst (ps : List SeleniumProfile) (name : String) (q : SeleniumProfile) :
    List SeleniumProfile :=
  match ps with
  | [] => []
  | p :: rest =>
    if p.name = name then q :: rest else p :: replaceFirst rest name q

/-- Orchestrator SeleniumManager state, src/orchestrator/manager.py lines
8-16. -/
structure SeleniumManager where
  profiles : List SeleniumProfile
  next_pid : Nat
deriving DecidableEq

/-- SeleniumManager.get_profile, src/orchestrator/manager.py lines 49-53. -/
def SeleniumManager.get_profile (m : SeleniumManager) (name : String) : Option SeleniumProfile :=
  m.profiles.find? (fun p => p.name = name)

/-- SeleniumManager.get_or_create_session, src/orchestrator/manager.py
lines 18-47: when a profile with the driver name exists, it is returned as
is if the tab name is registered in it; otherwise open_new_tab is called on
the existing instance (mutating it) and the same instance is returned.
When no profile exists one is created with the supplied options and
appended.  The driver-assigned window handle for a newly opened window is
the `handle` argument. -/
def SeleniumManager.get_or_create_session (m : SeleniumManager) (driver_name tab_name : String)
    (options : Options) (handle : String) : SeleniumManager × SeleniumProfile :=
  match m.get_profile driver_name with
  | some inst =>
    if inst.is_tab_exist tab_name then (m, inst)
    else
      let inst2 := inst.open_new_tab tab_name handle
      ({ m with profiles := replaceFirst m.profiles driver_name inst2 }, inst2)
  | none =>
    let p := SeleniumProfile.create m.next_pid driver_name tab_name options handle
    ({ profiles := m.profiles ++ [p], next_pid := m.next_pid + 1 }, p)

end Orch

namespace Application

open Domain

theorem findTab_eq_none_iff (s : TabService) (n : String) :
    s.findTab n = none ↔ n ∉ s.tabs.map Tab.name := by
  simp [TabService.findTab, List.find?_eq_none, List.mem_map]

theorem findTab_some {s : TabService} {n : String} {t : Tab}
    (h : s.findTab n = some t) : t ∈ s.tabs ∧ t.name = n := by
  have h1 := List.mem_of_find?_eq_some h
  have h2 := List.find?_some h
  simp only [decide_eq_true_eq] at h2
  exact ⟨h1, h2⟩

theorem map_name_map_update (l : List Tab) (f : Tab → DefaultTabStatus) :
    (l.map (fun t => t.update_status (f t))).map Tab.name = l.map Tab.name := by
  simp [List.map_map, Tab.update_status, Function.comp]

theorem countP_name_eq_zero {l : List Tab} {n : String}
    (h : n ∉ l.map Tab.name) : l.countP (fun t => t.name = n) = 0 := by
  rw [List.countP_eq_zero]
  intro t ht
  simp only [decide_eq_true_eq]
  intro he
  exact h (he ▸ List.mem_map_of_mem Tab.name ht)

theorem countP_name_eq_one {l : List Tab} {n : String}
    (hd : (l.map Tab.name).Nodup) (hm : n ∈ l.map Tab.name) :
    l.countP (fun t => t.name = n) = 1 := by
  induction l with
  | nil => simp at hm
  | cons a l ih =>
    rw [List.map_cons, List.nodup_cons] at hd
    rw [List.countP_cons]
    by_cases h : a.name = n
    · have hz : l.countP (fun t => t.name = n) = 0 :=
        countP_name_eq_zero (h ▸ hd.1)
      simp [hz, h]
    · rw [List.map_cons, List.mem_cons] at hm
      rcases hm with hm | hm
      · exact absurd hm.symm h
      · simp [h, ih hd.2 hm]

theorem activeCount_switch_map (l : List Tab) (n : String) :
    (l.map (fun t => t.update_status
      (if t.name = n then DefaultTabStatus.ACTIVE else DefaultTabStatus.INACTIVE))).countP
        (fun t => t.status = DefaultTabStatus.ACTIVE)
    = l.countP (fun t => t.name = n) := by
  rw [List.countP_map]
  apply List.countP_congr
  intro t _
  by_cases h : t.name = n <;> simp [Tab.update_status, h, Function.comp]

end Application

namespace Application

open Domain

theorem switch_to_of_none {s : TabService} {n : String}
    (h : s.findTab n = none) : s.switch_to n = (s, []) := by
  simp [TabService.switch_to, h]

theorem switch_to_of_some {s : TabService} {n : String} {tab : Tab}
    (h : s.findTab n = some tab) :
    s.switch_to n =
      ({ s with tabs := s.tabs.map (fun t =>
          t.update_status
            (if t.name = n then DefaultTabStatus.ACTIVE else DefaultTabStatus.INACTIVE)) },
       [PortCmd.switchTabPort tab.window_handle]) := by
  simp [TabService.switch_to, h]

theorem new_tab_of_closed {s : TabService} {n h : String}
    (hc : s.driver_status = DefaultDriverStatus.CLOSED) :
    s.new_tab n h = (s, [], false) := by
  simp [TabService.new_tab, hc]

theorem new_tab_of_open {s : TabService} {n h : String}
    (hc : s.driver_status ≠ DefaultDriverStatus.CLOSED) :
    s.new_tab n h =
      ({ s with tabs := s.tabs.map (fun t => t.update_status DefaultTabStatus.INACTIVE)
                  ++ [⟨n, h, DefaultTabStatus.ACTIVE⟩] },
       [PortCmd.newTabPort], true) := by
  simp [TabService.new_tab, hc]

theorem close_tab_of_none {s : TabService} {n : String}
    (h : s.findTab n = none) : s.close_tab n = (s, []) := by
  simp [TabService.close_tab, h]

theorem close_tab_of_sole {s : TabService} {n : String} {tab : Tab}
    (h : s.findTab n = some tab) (hl : s.tabs.length = 1) :
    s.close_tab n = s.close_all := by
  simp [TabService.close_tab, h, hl]

theorem close_tab_of_many {s : TabService} {n : String} {tab t0 : Tab}
    (h : s.findTab n = some tab) (hl : ¬ s.tabs.length = 1)
    (h0 : (s.tabs.eraseP (fun t => t.name = n)).head? = some t0) :
    s.close_tab n =
      (({ s with tabs := s.tabs.eraseP (fun t => t.name = n) } : TabService).switch_to t0.name
         |>.1,
       PortCmd.closeTabPort tab.window_handle ::
         (({ s with tabs := s.tabs.eraseP (fun t => t.name = n) } : TabService).switch_to t0.name
           |>.2)) := by
  simp [TabService.close_tab, h, hl, h0]

theorem switch_to_goodState (s : TabService) (n : String)
    (hnd : (s.tabs.map Tab.name).Nodup)
    (hcl : s.driver_status ≠ DefaultDriverStatus.CLOSED)
    (hm : n ∈ s.tabs.map Tab.name) :
    (s.switch_to n).1.goodState := by
  rcases hfind : s.findTab n with _ | tab
  · exact absurd ((findTab_eq_none_iff s n).mp hfind) (by simpa using hm)
  · rw [switch_to_of_some hfind]
    refine ⟨?_, ?_, ?_⟩
    · rw [map_name_map_update]
      exact hnd
    · intro hc
      exact absurd hc hcl
    · intro _
      rw [TabService.activeCount]
      rw [activeCount_switch_map]
      exact countP_name_eq_one hnd hm

end Application

namespace Application

open Domain

theorem close_tab_of_many_nil {s : TabService} {n : String} {tab : Tab}
    (h : s.findTab n = some tab) (hl : ¬ s.tabs.length = 1)
    (h0 : (s.tabs.eraseP (fun t => t.name = n)).head? = none) :
    s.close_tab n =
      ({ s with tabs := s.tabs.eraseP (fun t => t.name = n) },
       [PortCmd.closeTabPort tab.window_handle]) := by
  simp [TabService.close_tab, h, hl, h0]

theorem map_name_eraseP (l : List Tab) (n : String) :
    (l.eraseP (fun t => t.name = n)).map Tab.name = (l.map Tab.name).erase n := by
  induction l with
  | nil => simp
  | cons a l ih =>
    by_cases h : a.name = n
    · simp [List.eraseP_cons, h, List.erase_cons, List.map_cons]
    · simp [List.eraseP_cons, h, List.erase_cons, List.map_cons, ih]

theorem new_tab_preserves (s : TabService) (n h : String)
    (hs : s.goodState) (hf : s.findTab n = none) :
    (s.new_tab n h).1.goodState := by
  by_cases hc : s.driver_status = DefaultDriverStatus.CLOSED
  · rw [new_tab_of_closed hc]
    exact hs
  · rw [new_tab_of_open hc]
    have hnotmem : n ∉ s.tabs.map Tab.name := (findTab_eq_none_iff s n).mp hf
    refine ⟨?_, ?_, ?_⟩
    · have hnames :
        (List.map Tab.name
          (s.tabs.map (fun t => t.update_status DefaultTabStatus.INACTIVE)
            ++ [⟨n, h, DefaultTabStatus.ACTIVE⟩]))
          = s.tabs.map Tab.name ++ [n] := by
        simp [List.map_append, List.map_map, Tab.update_status, Function.comp]
      rw [hnames]
      simp [List.nodup_append, hs.1, hnotmem]
    · intro hcl
      exact absurd hcl hc
    · intro _
      rw [TabService.activeCount, List.countP_append, List.countP_map]
      simp [Tab.update_status, Function.comp]

theorem switch_to_preserves (s : TabService) (n : String) (hs : s.goodState) :
    (s.switch_to n).1.goodState := by
  rcases hfind : s.findTab n with _ | tab
  · rw [switch_to_of_none hfind]
    exact hs
  · have hmem := findTab_some hfind
    have hcl : s.driver_status ≠ DefaultDriverStatus.CLOSED := by
      intro hc
      have he : s.tabs = [] := hs.2.1 hc
      rw [TabService.findTab, he] at hfind
      simp at hfind
    exact switch_to_goodState s n hs.1 hcl (hmem.2 ▸ List.mem_map_of_mem Tab.name hmem.1)

theorem close_tab_preserves (s : TabService) (n : String) (hs : s.goodState) :
    (s.close_tab n).1.goodState := by
  rcases hfind : s.findTab n with _ | tab
  · rw [close_tab_of_none hfind]
    exact hs
  · by_cases hl : s.tabs.length = 1
    · rw [close_tab_of_sole hfind hl]
      exact ⟨by simp [TabService.close_all], by simp [TabService.close_all],
        by simp [TabService.close_all]⟩
    · have hmem := findTab_some hfind
      have hcl : s.driver_status ≠ DefaultDriverStatus.CLOSED := by
        intro hc
        have he : s.tabs = [] := hs.2.1 hc
        rw [TabService.findTab, he] at hfind
        simp at hfind
      have hnodup1 : ((s.tabs.eraseP (fun t => t.name = n)).map Tab.name).Nodup := by
        rw [map_name_eraseP]
        exact hs.1.erase n
      rcases h0 : (s.tabs.eraseP (fun t => t.name = n)).head? with _ | t0
      · rw [close_tab_of_many_nil hfind hl h0]
        rw [List.head?_eq_none_iff] at h0
        refine ⟨by rw [h0]; simp, fun _ => h0, fun hne => absurd h0 hne⟩
      · rw [close_tab_of_many hfind hl h0]
        have ht0 : t0 ∈ s.tabs.eraseP (fun t => t.name = n) := by
          rcases hE : s.tabs.eraseP (fun t => t.name = n) with _ | ⟨b, bs⟩
          · rw [hE] at h0
            simp at h0
          · rw [hE] at h0
            simp at h0
            rw [hE, h0]
            exact List.mem_cons_self t0 bs
        exact switch_to_goodState _ t0.name hnodup1 hcl
          (List.mem_map_of_mem Tab.name ht0)

theorem applyOp_preserves (s : TabService) (op : TabOp)
    (hs : s.goodState) (hf : s.freshOk op = true) : (s.applyOp op).goodState := by
  cases op with
  | newTabOp n h =>
    simp [TabService.freshOk, Option.isNone_iff_eq_none] at hf
    exact new_tab_preserves s n h hs hf
  | switchToOp n => exact switch_to_preserves s n hs
  | closeTabOp n => exact close_tab_preserves s n hs

theorem applyOps_preserves (ops : List TabOp) : ∀ (s : TabService),
    s.goodState → s.freshOps ops = true → (s.applyOps ops).goodState := by
  induction ops with
  | nil =>
    intro s hs _
    exact hs
  | cons op rest ih =>
    intro s hs hf
    rw [TabService.freshOps, Bool.and_eq_true] at hf
    have h1 := applyOp_preserves s op hs hf.1
    exact ih (s.applyOp op) h1 hf.2

end Application

namespace Infra

theorem waitUntilAux_none {α : Type} (pred : Nat → Option α) :
    ∀ (fuel start : Nat), (∀ t, start ≤ t → t < start + fuel → pred t = none) →
      waitUntilAux pred start fuel = none := by
  intro fuel
  induction fuel with
  | zero =>
    intro start _
    rfl
  | succ fuel ih =>
    intro start h
    rw [waitUntilAux]
    rw [h start (Nat.le_refl start) (by omega)]
    exact ih (start + 1) (fun t h1 h2 => h t (by omega) (by omega))

theorem waitUntil_never {α : Type} (pred : Nat → Option α) (timeout : Nat)
    (h : ∀ t, t ≤ timeout → pred t = none) :
    waitUntil pred timeout = Except.error SelException.TimeoutException := by
  rw [waitUntil, waitUntilAux_none pred (timeout + 1) 0 (fun t _ h2 => h t (by omega))]

end Infra

namespace Orch

open Domain

theorem updateFirst_length (l : List Tab) (n : String) (st : DefaultTabStatus) :
    (updateFirst l n st).length = l.length := by
  induction l with
  | nil => rfl
  | cons t ts ih =>
    rw [updateFirst]
    split
    · simp
    · simp [ih]

theorem foldl_inactive_pid (name : String) (l : List String) : ∀ (q : SeleniumProfile),
    (l.foldl (fun q n =>
      if n ≠ name then q.update_tab_status n DefaultTabStatus.INACTIVE else q) q).pid = q.pid := by
  induction l with
  | nil =>
    intro q
    rfl
  | cons x xs ih =>
    intro q
    rw [List.foldl_cons]
    rw [ih]
    split <;> rfl

theorem foldl_inactive_tabs_length (name : String) (l : List String) : ∀ (q : SeleniumProfile),
    (l.foldl (fun q n =>
      if n ≠ name then q.update_tab_status n DefaultTabStatus.INACTIVE else q) q).tabs.length
      = q.tabs.length := by
  induction l with
  | nil =>
    intro q
    rfl
  | cons x xs ih =>
    intro q
    rw [List.foldl_cons]
    rw [ih]
    split
    · exact updateFirst_length q.tabs x DefaultTabStatus.INACTIVE
    · rfl

theorem open_new_tab_pid (p : SeleniumProfile) (n h : String) :
    (p.open_new_tab n h).pid = p.pid := by
  simp only [SeleniumProfile.open_new_tab]
  rw [foldl_inactive_pid]
  split <;> rfl

theorem open_new_tab_length (p : SeleniumProfile) (n h : String)
    (hs : p.status ≠ DefaultDriverStatus.CLOSED) :
    (p.open_new_tab n h).tabs.length = p.tabs.length + 1 := by
  simp only [SeleniumProfile.open_new_tab]
  rw [foldl_inactive_tabs_length]
  simp [hs]

end Orch

namespace Infra

theorem driver_map_lookup_none (env : CreatorEnv) (k : String)
    (h : k ∉ ["chrome", "firefox", "remote"]) :
    (BrowserFactory.driver_map env).lookup k = none := by
  have h1 : (k == "chrome") = false :=
    beq_eq_false_iff_ne.mpr (fun he => h (by simp [he]))
  have h2 : (k == "firefox") = false :=
    beq_eq_false_iff_ne.mpr (fun he => h (by simp [he]))
  have h3 : (k == "remote") = false :=
    beq_eq_false_iff_ne.mpr (fun he => h (by simp [he]))
  simp [BrowserFactory.driver_map, List.lookup, h1, h2, h3]

end Infra

open Domain Application

/-- C1 (amended): for any sequence of new_tab/switch_to/close_tab operations
applied to a well-formed state in which every new_tab call uses a tab name
that is fresh at the moment it is applied, the resulting state has exactly
one ACTIVE tab whenever its tab list is non-empty, and zero ACTIVE tabs once
the driver is CLOSED. -/
theorem C1_single_active_invariant (s : TabService) (ops : List TabOp)
    (hs : s.goodState) (hf : s.freshOps ops = true) :
    ((s.applyOps ops).tabs ≠ [] → (s.applyOps ops).activeCount = 1)
    ∧ ((s.applyOps ops).driver_status = DefaultDriverStatus.CLOSED →
        (s.applyOps ops).activeCount = 0)
    ∧ (s.applyOps ops).goodState := by
  have h := applyOps_preserves ops s hs hf
  refine ⟨h.2.2, ?_, h⟩
  intro hc
  simp [TabService.activeCount, h.2.1 hc]

theorem C1_witness :
    (TabService.startState "t1" "h1").goodState
    ∧ (TabService.startState "t1" "h1").freshOps
        [TabOp.newTabOp "t2" "h2", TabOp.switchToOp "t1", TabOp.closeTabOp "t2"] = true
    ∧ ((((TabService.startState "t1" "h1").applyOps
          [TabOp.newTabOp "t2" "h2", TabOp.switchToOp "t1", TabOp.closeTabOp "t2"]).tabs ≠ [] →
        ((TabService.startState "t1" "h1").applyOps
          [TabOp.newTabOp "t2" "h2", TabOp.switchToOp "t1", TabOp.closeTabOp "t2"]).activeCount = 1)) :=
  ⟨by decide, by decide,
    (C1_single_active_invariant (TabService.startState "t1" "h1")
      [TabOp.newTabOp "t2" "h2", TabOp.switchToOp "t1", TabOp.closeTabOp "t2"]
      (by decide) (by decide)).1⟩

/-- C1 counterexample: starting from the canonical post-start state, the
sequence new_tab "a", new_tab "a", switch_to "a" (legal on the code, which
never rejects a duplicate name) leaves a non-Closed session whose tab list
is non-empty and carries TWO ACTIVE tabs. -/
theorem C1_counterexample :
    ((TabService.startState "t1" "h1").applyOps
      [TabOp.newTabOp "a" "h2", TabOp.newTabOp "a" "h3", TabOp.switchToOp "a"]).driver_status
        = DefaultDriverStatus.OPEN
    ∧ ((TabService.startState "t1" "h1").applyOps
      [TabOp.newTabOp "a" "h2", TabOp.newTabOp "a" "h3", TabOp.switchToOp "a"]).tabs ≠ []
    ∧ ((TabService.startState "t1" "h1").applyOps
      [TabOp.newTabOp "a" "h2", TabOp.newTabOp "a" "h3", TabOp.switchToOp "a"]).activeCount = 2 := by
  decide

/-- C4 (amended): new_tab returns a failure (False) with no state change
exactly when the session is CLOSED, and an already-registered name is never
rejected.  When the session is not CLOSED, TabService.new_tab opens a new
window, deactivates every existing tab and appends the new tab as ACTIVE;
the core SeleniumProfile.new_tab appends the new tab as ACTIVE but
deactivates only the tabs whose name differs from the new name, so every
pre-existing tab carrying the new name keeps its record — an ACTIVE one
stays ACTIVE. -/
theorem C4_new_tab_behaviour (s : TabService) (p : CoreM.SeleniumProfile)
    (name handle : String) :
    (s.driver_status = DefaultDriverStatus.CLOSED →
      s.new_tab name handle = (s, [], false))
    ∧ (s.driver_status ≠ DefaultDriverStatus.CLOSED →
        (s.new_tab name handle).2.2 = true
        ∧ (s.new_tab name handle).2.1 = [PortCmd.newTabPort]
        ∧ (s.new_tab name handle).1.tabs
            = s.tabs.map (fun t => t.update_status DefaultTabStatus.INACTIVE)
                ++ [⟨name, handle, DefaultTabStatus.ACTIVE⟩]
        ∧ (s.new_tab name handle).1.driver_status = s.driver_status)
    ∧ (p.status = DefaultDriverStatus.CLOSED →
        p.new_tab name handle = (p, false))
    ∧ (p.status ≠ DefaultDriverStatus.CLOSED →
        (p.new_tab name handle).2 = true
        ∧ (p.new_tab name handle).1.tabs
            = (p.tabs ++ [Tab.mk name handle DefaultTabStatus.ACTIVE]).map
                (fun t => if t.name ≠ name then t.update_status DefaultTabStatus.INACTIVE else t)
        ∧ (p.new_tab name handle).1.status = p.status
        ∧ (∀ t, t ∈ p.tabs → t.name = name → t ∈ (p.new_tab name handle).1.tabs)) := by
  refine ⟨?_, ?_, ?_, ?_⟩
  · intro hc
    exact new_tab_of_closed hc
  · intro hc
    rw [new_tab_of_open hc]
    exact ⟨rfl, rfl, rfl, rfl⟩
  · intro hc
    simp [CoreM.SeleniumProfile.new_tab, hc]
  · intro hc
    rw [CoreM.SeleniumProfile.new_tab, if_pos hc]
    refine ⟨rfl, rfl, rfl, ?_⟩
    intro t ht hn
    have hft :
        (fun t => if t.name ≠ name then t.update_status DefaultTabStatus.INACTIVE else t) t
          = t := by
      simp [hn]
    exact hft ▸ List.mem_map_of_mem _ (List.mem_append_left _ ht)

theorem C4_witness :
    (((TabService.startState "t1" "h1").new_tab "t2" "h2").2.2 = true
     ∧ ((TabService.startState "t1" "h1").new_tab "t2" "h2").2.1 = [PortCmd.newTabPort]
     ∧ ((TabService.startState "t1" "h1").new_tab "t2" "h2").1.tabs
         = (TabService.startState "t1" "h1").tabs.map
             (fun t => t.update_status DefaultTabStatus.INACTIVE)
             ++ [⟨"t2", "h2", DefaultTabStatus.ACTIVE⟩]
     ∧ ((TabService.startState "t1" "h1").new_tab "t2" "h2").1.driver_status
         = (TabService.startState "t1" "h1").driver_status)
    ∧ (((CoreM.SeleniumProfile.create 0 "s1" "t1" "h1").new_tab "t2" "h2").2 = true
       ∧ ((CoreM.SeleniumProfile.create 0 "s1" "t1" "h1").new_tab "t2" "h2").1.tabs
           = ((CoreM.SeleniumProfile.create 0 "s1" "t1" "h1").tabs
               ++ [Tab.mk "t2" "h2" DefaultTabStatus.ACTIVE]).map
               (fun t => if t.name ≠ "t2" then t.update_status DefaultTabStatus.INACTIVE else t)
       ∧ ((CoreM.SeleniumProfile.create 0 "s1" "t1" "h1").new_tab "t2" "h2").1.status
           = (CoreM.SeleniumProfile.create 0 "s1" "t1" "h1").status
       ∧ (∀ t, t ∈ (CoreM.SeleniumProfile.create 0 "s1" "t1" "h1").tabs → t.name = "t2" →
            t ∈ ((CoreM.SeleniumProfile.create 0 "s1" "t1" "h1").new_tab "t2" "h2").1.tabs)) :=
  ⟨(C4_new_tab_behaviour (TabService.startState "t1" "h1")
      (CoreM.SeleniumProfile.create 0 "s1" "t1" "h1") "t2" "h2").2.1 (by decide),
   (C4_new_tab_behaviour (TabService.startState "t1" "h1")
      (CoreM.SeleniumProfile.create 0 "s1" "t1" "h1") "t2" "h2").2.2.2 (by decide)⟩

/-- C4 counterexample: on a non-Closed session that already has a tab named
"t1", new_tab "t1" nevertheless returns success and changes the state in
both cited variants (the duplicate name is not rejected), contradicting the
claim that it is a no-op returning failure; in the core SeleniumProfile
variant the pre-existing ACTIVE tab named "t1" even stays ACTIVE next to
the new ACTIVE tab. -/
theorem C4_counterexample :
    ((TabService.startState "t1" "h1").findTab "t1").isSome = true
    ∧ (TabService.startState "t1" "h1").driver_status ≠ DefaultDriverStatus.CLOSED
    ∧ ((TabService.startState "t1" "h1").new_tab "t1" "h2").2.2 = true
    ∧ ((TabService.startState "t1" "h1").new_tab "t1" "h2").1
        ≠ TabService.startState "t1" "h1"
    ∧ ((CoreM.SeleniumProfile.create 0 "s1" "t1" "h1").new_tab "t1" "h2").2 = true
    ∧ ((CoreM.SeleniumProfile.create 0 "s1" "t1" "h1").new_tab "t1" "h2").1
        ≠ CoreM.SeleniumProfile.create 0 "s1" "t1" "h1"
    ∧ ((CoreM.SeleniumProfile.create 0 "s1" "t1" "h1").new_tab "t1" "h2").1.tabs
        = [⟨"t1", "h1", DefaultTabStatus.ACTIVE⟩, ⟨"t1", "h2", DefaultTabStatus.ACTIVE⟩] := by
  decide

/-- C7 (amended): close_tab on the sole tab's name closes the underlying
connection, empties the tab list and marks the session CLOSED; on a session
with at least two tabs whose names are pairwise distinct, close_tab on a
registered name removes exactly that tab (registration order preserved) and
makes the first remaining tab the single ACTIVE tab, leaving the driver
status unchanged. -/
theorem C7_close_tab_policy (s : TabService) (t : Tab) (name : String) :
    (s.tabs = [t] →
      s.close_tab t.name
        = ({ tabs := [], driver_status := DefaultDriverStatus.CLOSED }, [PortCmd.closePort]))
    ∧ ((s.tabs.map Tab.name).Nodup → 2 ≤ s.tabs.length → name ∈ s.tabs.map Tab.name →
        ((s.close_tab name).1.tabs.map Tab.name = (s.tabs.map Tab.name).erase name
         ∧ (s.close_tab name).1.activeCount = 1
         ∧ (s.close_tab name).1.tabs.head?.map Tab.status = some DefaultTabStatus.ACTIVE
         ∧ (s.close_tab name).1.driver_status = s.driver_status)) := by
  constructor
  · intro h1
    have hf : s.findTab t.name = some t := by
      rw [TabService.findTab, h1]
      simp
    have hl : s.tabs.length = 1 := by
      rw [h1]
      rfl
    rw [close_tab_of_sole hf hl]
    rfl
  · intro hnd hlen hm
    rcases hfind : s.findTab name with _ | tab
    · exact absurd ((findTab_eq_none_iff s name).mp hfind) (by simpa using hm)
    · have hl : ¬ s.tabs.length = 1 := by
        omega
      have hnames : (s.tabs.eraseP (fun u => u.name = name)).map Tab.name
          = (s.tabs.map Tab.name).erase name := map_name_eraseP s.tabs name
      have hlen1 : ((s.tabs.map Tab.name).erase name).length = s.tabs.length - 1 := by
        rw [List.length_erase_of_mem hm, List.length_map]
      rcases h0 : (s.tabs.eraseP (fun u => u.name = name)).head? with _ | t0
      · exfalso
        rw [List.head?_eq_none_iff] at h0
        rw [h0] at hnames
        have : ((s.tabs.map Tab.name).erase name).length = 0 := by
          rw [← hnames]
          rfl
        omega
      · rw [close_tab_of_many hfind hl h0]
        have ht0mem : t0 ∈ s.tabs.eraseP (fun u => u.name = name) := by
          rcases hE : s.tabs.eraseP (fun u => u.name = name) with _ | ⟨b, bs⟩
          · rw [hE] at h0
            simp at h0
          · rw [hE] at h0
            simp at h0
            rw [hE, h0]
            exact List.mem_cons_self t0 bs
        have hnd1 : ((s.tabs.eraseP (fun u => u.name = name)).map Tab.name).Nodup := by
          rw [hnames]
          exact hnd.erase name
        have hm1 : t0.name ∈ (s.tabs.eraseP (fun u => u.name = name)).map Tab.name :=
          List.mem_map_of_mem Tab.name ht0mem
        rcases hf1 : (TabService.mk (s.tabs.eraseP (fun u => u.name = name)) s.driver_status).findTab t0.name
          with _ | tab1
        · exact absurd ((findTab_eq_none_iff _ t0.name).mp hf1) (by simpa using hm1)
        · have heq := switch_to_of_some hf1
          rw [show ({ s with tabs := s.tabs.eraseP (fun u => u.name = name) } : TabService)
                = TabService.mk (s.tabs.eraseP (fun u => u.name = name)) s.driver_status from rfl,
              heq]
          refine ⟨?_, ?_, ?_, rfl⟩
          · simp only [List.map_map]
            rw [show (Tab.name ∘ fun u => u.update_status
                (if u.name = t0.name then DefaultTabStatus.ACTIVE else DefaultTabStatus.INACTIVE))
                  = Tab.name from rfl]
            exact hnames
          · rw [TabService.activeCount, activeCount_switch_map]
            exact countP_name_eq_one hnd1 hm1
          · rcases hE : s.tabs.eraseP (fun u => u.name = name) with _ | ⟨b, bs⟩
            · rw [hE] at h0
              simp at h0
            · rw [hE] at h0
              simp at h0
              rw [hE, h0]
              simp [Tab.update_status]

theorem C7_witness :
    ((TabService.mk [⟨"solo", "h1", DefaultTabStatus.ACTIVE⟩] DefaultDriverStatus.OPEN).close_tab "solo"
        = ({ tabs := [], driver_status := DefaultDriverStatus.CLOSED }, [PortCmd.closePort]))
    ∧ (((TabService.mk [⟨"t1", "h1", DefaultTabStatus.INACTIVE⟩, ⟨"t2", "h2", DefaultTabStatus.INACTIVE⟩,
          ⟨"t3", "h3", DefaultTabStatus.ACTIVE⟩] DefaultDriverStatus.OPEN).close_tab "t2").1.tabs.map Tab.name
          = ((TabService.mk [⟨"t1", "h1", DefaultTabStatus.INACTIVE⟩, ⟨"t2", "h2", DefaultTabStatus.INACTIVE⟩,
              ⟨"t3", "h3", DefaultTabStatus.ACTIVE⟩] DefaultDriverStatus.OPEN).tabs.map Tab.name).erase "t2"
        ∧ ((TabService.mk [⟨"t1", "h1", DefaultTabStatus.INACTIVE⟩, ⟨"t2", "h2", DefaultTabStatus.INACTIVE⟩,
            ⟨"t3", "h3", DefaultTabStatus.ACTIVE⟩] DefaultDriverStatus.OPEN).close_tab "t2").1.activeCount = 1
        ∧ ((TabService.mk [⟨"t1", "h1", DefaultTabStatus.INACTIVE⟩, ⟨"t2", "h2", DefaultTabStatus.INACTIVE⟩,
            ⟨"t3", "h3", DefaultTabStatus.ACTIVE⟩] DefaultDriverStatus.OPEN).close_tab "t2").1.tabs.head?.map Tab.status
            = some DefaultTabStatus.ACTIVE
        ∧ ((TabService.mk [⟨"t1", "h1", DefaultTabStatus.INACTIVE⟩, ⟨"t2", "h2", DefaultTabStatus.INACTIVE⟩,
            ⟨"t3", "h3", DefaultTabStatus.ACTIVE⟩] DefaultDriverStatus.OPEN).close_tab "t2").1.driver_status
            = (TabService.mk [⟨"t1", "h1", DefaultTabStatus.INACTIVE⟩, ⟨"t2", "h2", DefaultTabStatus.INACTIVE⟩,
                ⟨"t3", "h3", DefaultTabStatus.ACTIVE⟩] DefaultDriverStatus.OPEN).driver_status) :=
  ⟨(C7_close_tab_policy
      (TabService.mk [⟨"solo", "h1", DefaultTabStatus.ACTIVE⟩] DefaultDriverStatus.OPEN)
      ⟨"solo", "h1", DefaultTabStatus.ACTIVE⟩ "solo").1 rfl,
   (C7_close_tab_policy
      (TabService.mk [⟨"t1", "h1", DefaultTabStatus.INACTIVE⟩, ⟨"t2", "h2", DefaultTabStatus.INACTIVE⟩,
        ⟨"t3", "h3", DefaultTabStatus.ACTIVE⟩] DefaultDriverStatus.OPEN)
      ⟨"solo", "h1", DefaultTabStatus.ACTIVE⟩ "t2").2 (by decide) (by decide) (by decide)⟩

/-- C7 counterexample: a reachable session with more than one tab (two of
them sharing the name "a") on which close_tab of the registered name "b"
leaves TWO ACTIVE tabs, not a single one. -/
theorem C7_counterexample :
    (TabService.startState "a" "h1").applyOps
        [TabOp.newTabOp "a" "h2", TabOp.newTabOp "b" "h3"]
      = TabService.mk [⟨"a", "h1", DefaultTabStatus.INACTIVE⟩, ⟨"a", "h2", DefaultTabStatus.INACTIVE⟩,
          ⟨"b", "h3", DefaultTabStatus.ACTIVE⟩] DefaultDriverStatus.OPEN
    ∧ 2 ≤ (TabService.mk [⟨"a", "h1", DefaultTabStatus.INACTIVE⟩, ⟨"a", "h2", DefaultTabStatus.INACTIVE⟩,
          ⟨"b", "h3", DefaultTabStatus.ACTIVE⟩] DefaultDriverStatus.OPEN).tabs.length
    ∧ "b" ∈ (TabService.mk [⟨"a", "h1", DefaultTabStatus.INACTIVE⟩, ⟨"a", "h2", DefaultTabStatus.INACTIVE⟩,
          ⟨"b", "h3", DefaultTabStatus.ACTIVE⟩] DefaultDriverStatus.OPEN).tabs.map Tab.name
    ∧ ((TabService.mk [⟨"a", "h1", DefaultTabStatus.INACTIVE⟩, ⟨"a", "h2", DefaultTabStatus.INACTIVE⟩,
          ⟨"b", "h3", DefaultTabStatus.ACTIVE⟩] DefaultDriverStatus.OPEN).close_tab "b").1.activeCount = 2 := by
  decide

open CorePorts

/-- C8: a Locator constructed with any strategy outside the eight-member
allow-list is a construction-time error, and with any strategy inside it
the construction succeeds and stores the (strategy, value) pair
unchanged. -/
theorem C8_locator_strategies (by_ value : String) :
    (by_ ∈ VALID_STRATEGIES ↔
      Locator.make by_ value = Except.ok { by_ := by_, value := value })
    ∧ (by_ ∉ VALID_STRATEGIES →
        Locator.make by_ value = Except.error ("Invalid locator strategy: " ++ by_))
    ∧ VALID_STRATEGIES.length = 8 := by
  refine ⟨⟨fun h => ?_, fun h => ?_⟩, fun h => ?_, rfl⟩
  · simp [Locator.make, h]
  · by_contra hnot
    simp [Locator.make, hnot] at h
  · simp [Locator.make, h]

/-- C8 witness: the theorem applied at the valid strategy "xpath" and at the
rejected strategy "by-magic". -/
theorem C8_witness :
    Locator.make "xpath" "//div" = Except.ok { by_ := "xpath", value := "//div" }
    ∧ Locator.make "by-magic" "q" = Except.error ("Invalid locator strategy: " ++ "by-magic") :=
  ⟨(C8_locator_strategies "xpath" "//div").1.mp (by decide),
   (C8_locator_strategies "by-magic" "q").2.1 (by decide)⟩

open Infra CorePorts

/-- C6: when neither the chosen single-element condition nor the
all-elements presence condition ever produces a value within the poll
deadline, expiry of the timeout is not surfaced as an error: find_element
returns the absent value None and find_elements returns the empty
sequence, in both cases after consuming the full timeout. -/
theorem C6_timeout_yields_absent (d : Driver) (loc : Locator) (timeout : Nat)
    (cond : String)
    (hec : ∀ t, t ≤ timeout →
      d.ecOutcome ((ec_map.lookup cond).getD ECKind.presence_of_element_located) loc t = none)
    (hall : ∀ t, t ≤ timeout → d.allMatches loc t = []) :
    (SeleniumSession.mk (some d)).find_element loc timeout cond none
        = (Except.ok none, timeout)
    ∧ (SeleniumSession.mk (some d)).find_elements loc timeout false none
        = (Except.ok [], timeout) := by
  constructor
  · simp only [SeleniumSession.find_element]
    rw [waitUntil_never _ timeout hec]
  · simp only [SeleniumSession.find_elements]
    rw [waitUntil_never _ timeout (fun t ht => by simp [hall t ht])]

theorem C6_witness :
    (SeleniumSession.mk (some neverDriver)).find_element sampleLocator 10
        WaitCondition.PRESENCE_OF_ELEMENT_LOCATED none = (Except.ok none, 10)
    ∧ (SeleniumSession.mk (some neverDriver)).find_elements sampleLocator 10 false none
        = (Except.ok [], 10) :=
  C6_timeout_yields_absent neverDriver sampleLocator 10
    WaitCondition.PRESENCE_OF_ELEMENT_LOCATED
    (fun _ _ => rfl) (fun _ _ => rfl)

/-- C5 (amended): with a root element supplied, resolution is a single
immediate scoped query consuming zero poll ticks — find_elements returns
the (possibly empty) scoped match list, while find_element on a locator
with no match under the root raises NoSuchElementException (it does not
return the absent value); without a root, resolution against a locator
whose condition never holds consumes the full timeout and then returns the
absent value (None / empty list). -/
theorem C5_scoped_vs_unscoped (d : Driver) (root : RootElement) (loc : Locator)
    (timeout : Nat) (cond : String)
    (hroot : root.found loc = [])
    (hec : ∀ t, t ≤ timeout →
      d.ecOutcome ((ec_map.lookup cond).getD ECKind.presence_of_element_located) loc t = none)
    (hall : ∀ t, t ≤ timeout → d.allMatches loc t = []) :
    (SeleniumSession.mk (some d)).find_element loc timeout cond (some root)
        = (Except.error SelException.NoSuchElementException, 0)
    ∧ (SeleniumSession.mk (some d)).find_elements loc timeout false (some root)
        = (Except.ok [], 0)
    ∧ (SeleniumSession.mk (some d)).find_element loc timeout cond none
        = (Except.ok none, timeout)
    ∧ (SeleniumSession.mk (some d)).find_elements loc timeout false none
        = (Except.ok [], timeout)
    ∧ (∀ r2 : RootElement,
        ((SeleniumSession.mk (some d)).find_element loc timeout cond (some r2)).2 = 0
        ∧ ((SeleniumSession.mk (some d)).find_elements loc timeout false (some r2)).2 = 0) := by
  refine ⟨?_, ?_, ?_, ?_, ?_⟩
  · simp [SeleniumSession.find_element, hroot]
  · simp [SeleniumSession.find_elements, hroot]
  · simp only [SeleniumSession.find_element]
    rw [waitUntil_never _ timeout hec]
  · simp only [SeleniumSession.find_elements]
    rw [waitUntil_never _ timeout (fun t ht => by simp [hall t ht])]
  · intro r2
    constructor
    · rcases h2 : (r2.found loc).head? with _ | e <;>
        simp [SeleniumSession.find_element, h2]
    · rfl

theorem C5_witness :
    (SeleniumSession.mk (some neverDriver)).find_element sampleLocator 3
        WaitCondition.PRESENCE_OF_ELEMENT_LOCATED (some emptyRoot)
        = (Except.error SelException.NoSuchElementException, 0)
    ∧ (SeleniumSession.mk (some neverDriver)).find_elements sampleLocator 3 false (some emptyRoot)
        = (Except.ok [], 0)
    ∧ (SeleniumSession.mk (some neverDriver)).find_element sampleLocator 3
        WaitCondition.PRESENCE_OF_ELEMENT_LOCATED none = (Except.ok none, 3)
    ∧ (SeleniumSession.mk (some neverDriver)).find_elements sampleLocator 3 false none
        = (Except.ok [], 3)
    ∧ (∀ r2 : RootElement,
        ((SeleniumSession.mk (some neverDriver)).find_element sampleLocator 3
            WaitCondition.PRESENCE_OF_ELEMENT_LOCATED (some r2)).2 = 0
        ∧ ((SeleniumSession.mk (some neverDriver)).find_elements sampleLocator 3 false (some r2)).2 = 0) :=
  C5_scoped_vs_unscoped neverDriver emptyRoot sampleLocator 3
    WaitCondition.PRESENCE_OF_ELEMENT_LOCATED rfl (fun _ _ => rfl) (fun _ _ => rfl)

/-- C5 counterexample: with a root under which the locator never matches
(while the page-wide condition would match immediately), the scoped
find_element call raises NoSuchElementException instead of returning the
absent value None that the claim promises. -/
theorem C5_counterexample :
    (SeleniumSession.mk (some alwaysDriver)).find_element sampleLocator 5
        WaitCondition.PRESENCE_OF_ELEMENT_LOCATED (some emptyRoot)
      = (Except.error SelException.NoSuchElementException, 0)
    ∧ ((SeleniumSession.mk (some alwaysDriver)).find_element sampleLocator 5
        WaitCondition.PRESENCE_OF_ELEMENT_LOCATED (some emptyRoot)).1
      ≠ Except.ok none
    ∧ (SeleniumSession.mk (some alwaysDriver)).find_element sampleLocator 5
        WaitCondition.PRESENCE_OF_ELEMENT_LOCATED none
      = (Except.ok (some ⟨7⟩), 0) := by
  exact ⟨rfl, fun hc => Except.noConfusion hc, rfl⟩

/-- C3 (amended): the condition-to-predicate table has a silent default:
every condition string outside the table resolves with the
presence_of_element_located predicate, behaving exactly as if that
condition had been passed; no error of any kind is raised. -/
theorem C3_condition_fallback (s : SeleniumSession) (loc : Locator) (timeout : Nat)
    (root : Option RootElement) (cond : String)
    (h : ec_map.lookup cond = none) :
    s.find_element loc timeout cond root
      = s.find_element loc timeout WaitCondition.PRESENCE_OF_ELEMENT_LOCATED root := by
  have hp : ec_map.lookup WaitCondition.PRESENCE_OF_ELEMENT_LOCATED
      = some ECKind.presence_of_element_located := by decide
  simp only [SeleniumSession.find_element, h, hp, Option.getD_none, Option.getD_some]

theorem C3_witness :
    (SeleniumSession.mk (some alwaysDriver)).find_element sampleLocator 5
        "bogus_condition" none
      = (SeleniumSession.mk (some alwaysDriver)).find_element sampleLocator 5
          WaitCondition.PRESENCE_OF_ELEMENT_LOCATED none :=
  C3_condition_fallback (SeleniumSession.mk (some alwaysDriver)) sampleLocator 5 none
    "bogus_condition" (by decide)

/-- C3 counterexample: the condition string "definitely_not_a_condition"
is outside the table, yet resolution is not an error of any kind: the call
silently resolves with the default presence predicate and succeeds. -/
theorem C3_counterexample :
    ec_map.lookup "definitely_not_a_condition" = none
    ∧ (SeleniumSession.mk (some alwaysDriver)).find_element sampleLocator 5
        "definitely_not_a_condition" none = (Except.ok (some ⟨7⟩), 0) :=
  ⟨by decide, rfl⟩

/-- C10: every operation of a SeleniumSession whose driver handle is None
— find_element, find_elements, get, new_tab, execute, execute_cdp — raises
WebDriverException "Driver not initialized" instead of returning an absent
value or an empty sequence. -/
theorem C10_uninitialized_driver (s : SeleniumSession) (h : s.driver = none)
    (loc : Locator) (timeout : Nat) (cond : String) (root : Option RootElement)
    (scroll : Bool) (url command cmd params params2 : String) :
    s.find_element loc timeout cond root
        = (Except.error (SelException.WebDriverException "Driver not initialized"), 0)
    ∧ s.find_elements loc timeout scroll root
        = (Except.error (SelException.WebDriverException "Driver not initialized"), 0)
    ∧ s.get url = Except.error (SelException.WebDriverException "Driver not initialized")
    ∧ s.new_tab = Except.error (SelException.WebDriverException "Driver not initialized")
    ∧ s.execute command params
        = Except.error (SelException.WebDriverException "Driver not initialized")
    ∧ s.execute_cdp cmd params2
        = Except.error (SelException.WebDriverException "Driver not initialized") := by
  rcases s with ⟨dr⟩
  rcases dr with _ | d
  · exact ⟨rfl, rfl, rfl, rfl, rfl, rfl⟩
  · simp at h

theorem C10_witness :
    (SeleniumSession.mk none).find_element sampleLocator 5
        WaitCondition.PRESENCE_OF_ELEMENT_LOCATED none
        = (Except.error (SelException.WebDriverException "Driver not initialized"), 0)
    ∧ (SeleniumSession.mk none).find_elements sampleLocator 5 false none
        = (Except.error (SelException.WebDriverException "Driver not initialized"), 0)
    ∧ (SeleniumSession.mk none).get "https://example.org"
        = Except.error (SelException.WebDriverException "Driver not initialized")
    ∧ (SeleniumSession.mk none).new_tab
        = Except.error (SelException.WebDriverException "Driver not initialized")
    ∧ (SeleniumSession.mk none).execute "cmd" "p"
        = Except.error (SelException.WebDriverException "Driver not initialized")
    ∧ (SeleniumSession.mk none).execute_cdp "Storage.clearDataForOrigin" "p"
        = Except.error (SelException.WebDriverException "Driver not initialized") :=
  C10_uninitialized_driver (SeleniumSession.mk none) rfl sampleLocator 5
    WaitCondition.PRESENCE_OF_ELEMENT_LOCATED none false "https://example.org" "cmd" "Storage.clearDataForOrigin" "p" "p"

/-- C2 (amended): when the name is already registered, new_profile (both the
application ProfileManager and the core SeleniumManager variant) returns the
identical registered instance, leaves the registry and the instance
unchanged, and never reads the tab-name/options/connection arguments; the
orchestrator get_or_create_session also returns the identical instance (same
identity stamp) ignoring the supplied options, but when the supplied tab
name is not registered in it, it first opens that tab in the existing
session — the session is mutated, not left unchanged. -/
theorem C2_get_or_create_idempotence
    (am : AppProfiles.ProfileManager) (ap : AppProfiles.Profile)
    (cm : CoreM.SeleniumManager) (cp : CoreM.SeleniumProfile)
    (om : Orch.SeleniumManager) (op2 : Orch.SeleniumProfile)
    (dn tn : String) (o : Infra.BrowserConfigBuilder) (c : Infra.Connection)
    (oo : Orch.Options) (h : String)
    (ham : am.profiles.lookup dn = some ap)
    (hcm : cm.get_profile dn = some cp)
    (hom : om.get_profile dn = some op2) :
    am.new_profile dn tn o c h = (am, ap)
    ∧ cm.new_profile dn tn o c h = (cm, cp)
    ∧ (op2.is_tab_exist tn = true →
        om.get_or_create_session dn tn oo h = (om, op2))
    ∧ (op2.is_tab_exist tn = false →
        ((om.get_or_create_session dn tn oo h).2.pid = op2.pid
         ∧ (op2.status ≠ Domain.DefaultDriverStatus.CLOSED →
             (om.get_or_create_session dn tn oo h).2.tabs.length = op2.tabs.length + 1))) := by
  refine ⟨?_, ?_, ?_, ?_⟩
  · simp [AppProfiles.ProfileManager.new_profile, ham]
  · simp [CoreM.SeleniumManager.new_profile, hcm]
  · intro ht
    simp [Orch.SeleniumManager.get_or_create_session, hom, ht]
  · intro ht
    have h2 : (om.get_or_create_session dn tn oo h).2 = op2.open_new_tab tn h := by
      simp [Orch.SeleniumManager.get_or_create_session, hom, ht]
    constructor
    · rw [h2, Orch.open_new_tab_pid]
    · intro hs
      rw [h2, Orch.open_new_tab_length op2 tn h hs]

theorem C2_witness :
    (AppProfiles.ProfileManager.new_profile
        ⟨[("s1", AppProfiles.Profile.create 0 "s1" "t1" "h1")], 1⟩ "s1" "t2"
        ⟨["--headless"]⟩ ⟨"chrome", "/b", ""⟩ "h2"
      = (⟨[("s1", AppProfiles.Profile.create 0 "s1" "t1" "h1")], 1⟩,
         AppProfiles.Profile.create 0 "s1" "t1" "h1"))
    ∧ (CoreM.SeleniumManager.new_profile
        ⟨[CoreM.SeleniumProfile.create 0 "s1" "t1" "h1"], 1⟩ "s1" "t2"
        ⟨["--headless"]⟩ ⟨"chrome", "/b", ""⟩ "h2"
      = (⟨[CoreM.SeleniumProfile.create 0 "s1" "t1" "h1"], 1⟩,
         CoreM.SeleniumProfile.create 0 "s1" "t1" "h1"))
    ∧ ((Orch.SeleniumProfile.create 0 "s1" "t1" ⟨[]⟩ "h1").is_tab_exist "t2" = true →
        Orch.SeleniumManager.get_or_create_session
          ⟨[Orch.SeleniumProfile.create 0 "s1" "t1" ⟨[]⟩ "h1"], 1⟩ "s1" "t2" ⟨["--headless"]⟩ "h2"
        = (⟨[Orch.SeleniumProfile.create 0 "s1" "t1" ⟨[]⟩ "h1"], 1⟩,
           Orch.SeleniumProfile.create 0 "s1" "t1" ⟨[]⟩ "h1"))
    ∧ ((Orch.SeleniumProfile.create 0 "s1" "t1" ⟨[]⟩ "h1").is_tab_exist "t2" = false →
        (((Orch.SeleniumManager.get_or_create_session
            ⟨[Orch.SeleniumProfile.create 0 "s1" "t1" ⟨[]⟩ "h1"], 1⟩ "s1" "t2"
            ⟨["--headless"]⟩ "h2").2.pid = (Orch.SeleniumProfile.create 0 "s1" "t1" ⟨[]⟩ "h1").pid)
         ∧ ((Orch.SeleniumProfile.create 0 "s1" "t1" ⟨[]⟩ "h1").status
              ≠ Domain.DefaultDriverStatus.CLOSED →
            (Orch.SeleniumManager.get_or_create_session
              ⟨[Orch.SeleniumProfile.create 0 "s1" "t1" ⟨[]⟩ "h1"], 1⟩ "s1" "t2"
              ⟨["--headless"]⟩ "h2").2.tabs.length
              = (Orch.SeleniumProfile.create 0 "s1" "t1" ⟨[]⟩ "h1").tabs.length + 1))) :=
  C2_get_or_create_idempotence
    ⟨[("s1", AppProfiles.Profile.create 0 "s1" "t1" "h1")], 1⟩
    (AppProfiles.Profile.create 0 "s1" "t1" "h1")
    ⟨[CoreM.SeleniumProfile.create 0 "s1" "t1" "h1"], 1⟩
    (CoreM.SeleniumProfile.create 0 "s1" "t1" "h1")
    ⟨[Orch.SeleniumProfile.create 0 "s1" "t1" ⟨[]⟩ "h1"], 1⟩
    (Orch.SeleniumProfile.create 0 "s1" "t1" ⟨[]⟩ "h1")
    "s1" "t2" ⟨["--headless"]⟩ ⟨"chrome", "/b", ""⟩ ⟨["--headless"]⟩ "h2"
    (by decide) (by decide) (by decide)

/-- C2 counterexample: after get_or_create_session creates session "s1"
with tab "t1", a second call with the same name but tab name "t2" returns
the identical instance (same identity stamp) yet does not leave it
unchanged: the existing session gains a second tab, while the differing
options argument is ignored (the stored options are still the original
ones). -/
theorem C2_counterexample :
    ((Orch.SeleniumManager.get_or_create_session ⟨[], 0⟩ "s1" "t1" ⟨[]⟩ "h1").2.tabs.length = 1)
    ∧ ((Orch.SeleniumManager.get_or_create_session
          (Orch.SeleniumManager.get_or_create_session ⟨[], 0⟩ "s1" "t1" ⟨[]⟩ "h1").1
          "s1" "t2" ⟨["--headless"]⟩ "h2").2.pid
        = (Orch.SeleniumManager.get_or_create_session ⟨[], 0⟩ "s1" "t1" ⟨[]⟩ "h1").2.pid)
    ∧ ((Orch.SeleniumManager.get_or_create_session
          (Orch.SeleniumManager.get_or_create_session ⟨[], 0⟩ "s1" "t1" ⟨[]⟩ "h1").1
          "s1" "t2" ⟨["--headless"]⟩ "h2").2.tabs.length = 2)
    ∧ ((Orch.SeleniumManager.get_or_create_session
          (Orch.SeleniumManager.get_or_create_session ⟨[], 0⟩ "s1" "t1" ⟨[]⟩ "h1").1
          "s1" "t2" ⟨["--headless"]⟩ "h2").2.options = ⟨[]⟩)
    ∧ ((Orch.SeleniumManager.get_or_create_session
          (Orch.SeleniumManager.get_or_create_session ⟨[], 0⟩ "s1" "t1" ⟨[]⟩ "h1").1
          "s1" "t2" ⟨["--headless"]⟩ "h2").2
        ≠ (Orch.SeleniumManager.get_or_create_session ⟨[], 0⟩ "s1" "t1" ⟨[]⟩ "h1").2) := by
  decide

/-- C9: BrowserFactory.create_browser dispatches on the lowercased browser
kind through the fixed three-entry table (so dispatch is case-insensitive),
and for every kind outside the table it fails with the typed
BrowserInitializationError — the code's realization of the spec's
UnsupportedBrowserKind — whatever the creator environment does, i.e.
without invoking any creator (no driver launched, no state touched). -/
theorem C9_factory_dispatch (env : Infra.CreatorEnv) (browser_type : String)
    (options : Infra.BrowserConfigBuilder) (connection : Infra.Connection) :
    (∀ bt2 : String, Infra.lower browser_type = Infra.lower bt2 →
       Infra.BrowserFactory.create_browser env browser_type options connection
         = Infra.BrowserFactory.create_browser env bt2 options connection)
    ∧ (Infra.lower browser_type = "chrome" →
        Infra.BrowserFactory.create_browser env browser_type options connection
          = env.chrome options connection)
    ∧ (Infra.lower browser_type = "firefox" →
        Infra.BrowserFactory.create_browser env browser_type options connection
          = env.firefox options connection)
    ∧ (Infra.lower browser_type = "remote" →
        Infra.BrowserFactory.create_browser env browser_type options connection
          = env.remote options connection)
    ∧ (Infra.lower browser_type ∉ ["chrome", "firefox", "remote"] →
        ∀ env2 : Infra.CreatorEnv,
          Infra.BrowserFactory.create_browser env2 browser_type options connection
            = Except.error (Infra.WrapperError.BrowserInitializationError
                (Infra.lower browser_type) "Failed to initialize browser")) := by
  refine ⟨?_, ?_, ?_, ?_, ?_⟩
  · intro bt2 he
    simp only [Infra.BrowserFactory.create_browser]
    rw [he]
  · intro he
    simp only [Infra.BrowserFactory.create_browser]
    rw [he]
    rfl
  · intro he
    simp only [Infra.BrowserFactory.create_browser]
    rw [he]
    rfl
  · intro he
    simp only [Infra.BrowserFactory.create_browser]
    rw [he]
    rfl
  · intro he env2
    simp only [Infra.BrowserFactory.create_browser]
    rw [Infra.driver_map_lookup_none env2 (Infra.lower browser_type) he]

theorem C9_witness :
    Infra.BrowserFactory.create_browser Infra.stubCreatorEnv "CHROME"
        ⟨[]⟩ ⟨"chrome", "/usr/bin/chromedriver", ""⟩
      = Infra.stubCreatorEnv.chrome ⟨[]⟩ ⟨"chrome", "/usr/bin/chromedriver", ""⟩
    ∧ Infra.BrowserFactory.create_browser Infra.stubCreatorEnv "opera" ⟨[]⟩ ⟨"opera", "", ""⟩
      = Except.error (Infra.WrapperError.BrowserInitializationError
          "opera" "Failed to initialize browser") :=
  ⟨(C9_factory_dispatch Infra.stubCreatorEnv "CHROME" ⟨[]⟩
      ⟨"chrome", "/usr/bin/chromedriver", ""⟩).2.1 (by decide),
   by
    have h5 := (C9_factory_dispatch Infra.stubCreatorEnv "opera" ⟨[]⟩
      ⟨"opera", "", ""⟩).2.2.2.2 (by decide) Infra.stubCreatorEnv
    rwa [(by decide : Infra.lower "opera" = "opera")] at h5⟩
